import Mathlib

/-!
Verification of the authentication / authorization core of the ternoa-enclaves
repository (src/chain/verify.rs and src/backup/admin_nftid.rs).

Rust strings are modelled as lists of characters (`Str`), u32 / u8 machine
arithmetic as natural numbers with explicit wrap-around, chain queries and
sr25519 cryptography as explicit oracle parameters (they are external
collaborators of this core), and fallible operations as `Option` / `Except`.
-/

set_option maxRecDepth 4096

deriving instance DecidableEq for Except

/-- Rust `String` / `&str`, modelled as its character list. -/
abbrev Str := List Char

/-- Chain account (an ss58-encoded address; `sr25519::Public` and `AccountId32`
are compared through this common encoding). -/
abbrev Account := Str

/-- 2^32: modulus of Rust `u32` arithmetic. -/
def W : Nat := 4294967296

/-- Rust `u32` wrapping subtraction `a - b` (release-profile semantics), for
`a < W` and `b ≤ W`. -/
def sub32 (a b : Nat) : Nat := (a + W - b) % W

/-- Rust `u32` wrapping addition. -/
def add32 (a b : Nat) : Nat := (a + b) % W

/- ---------------- Rust standard-library string primitives ---------------- -/

/-- Value accumulated by reading decimal digits most-significant first
(the semantics of a successful Rust `str::parse::<u32>` body). -/
def digitsVal (s : Str) : Nat := s.foldl (fun a c => 10 * a + (c.toNat - 48)) 0

/-- Core of Rust `str::parse::<u32>` after the optional sign: non-empty, all
decimal digits, value within `u32` range. -/
def parseU32core (s : Str) : Option Nat :=
  if s = [] then none
  else if s.all Char.isDigit then
    if digitsVal s < W then some (digitsVal s) else none
  else none

/-- Rust `str::parse::<u32>`: an optional leading '+' followed by digits. -/
def parseU32 (s : Str) : Option Nat :=
  match s with
  | [] => none
  | c :: rest => if c = '+' then parseU32core rest else parseU32core (c :: rest)

/-- Rust `str::split('_')...collect::<Vec<&str>>()`: split on the delimiter,
keeping empty segments (`"".split` gives `[""]`). -/
def splitU : Str → List Str
  | [] => [[]]
  | c :: rest =>
    if c = '_' then [] :: splitU rest
    else
      match splitU rest with
      | [] => [[c]]
      | p :: ps => (c :: p) :: ps

/-- Rust `str::contains("_")`. -/
def hasDelim (s : Str) : Bool := s.any (fun c => c = '_')

/-- The `<Bytes>` marker some signing UIs (polkadot.js) wrap around signed text. -/
def bytesOpen : Str := "<Bytes>".toList

/-- The closing `</Bytes>` marker. -/
def bytesClose : Str := "</Bytes>".toList

/-- Rust `l.take (l.length - n)`, i.e. dropping `n` characters from the end
(`strip_suffix` after the `ends_with` test has succeeded). -/
def dropEnd (l : Str) (n : Nat) : Str := l.take (l.length - n)

/-- The wrapper-stripping step shared by `get_signer`, `parse_store_data` and
`parse_retrieve_data`: strip one `<Bytes>`/`</Bytes>` pair when BOTH are
present, otherwise leave the field untouched. -/
def stripMarkers (s : Str) : Str :=
  if bytesOpen.isPrefixOf s && bytesClose.isSuffixOf s then
    dropEnd (s.drop 7) 8
  else s

/- ---------------- hex decoding (the `hex` crate) ---------------- -/

/-- Value of one hex digit, `None` for a non-hex character. -/
def hexVal (c : Char) : Option Nat :=
  if '0' ≤ c ∧ c ≤ '9' then some (c.toNat - 48)
  else if 'a' ≤ c ∧ c ≤ 'f' then some (c.toNat - 87)
  else if 'A' ≤ c ∧ c ≤ 'F' then some (c.toNat - 55)
  else none

/-- Whether a character is a hexadecimal digit. -/
def isHexDigit (c : Char) : Bool := (hexVal c).isSome

/-- Decode a hex string two characters per byte. -/
def hexPairs : Str → Option (List Nat)
  | [] => some []
  | [_] => none
  | a :: b :: rest =>
    match hexVal a, hexVal b, hexPairs rest with
    | some x, some y, some t => some ((16 * x + y) :: t)
    | _, _, _ => none

/-- Errors of the `hex` crate's `FromHex` implementation for `[u8; 64]`. -/
inductive FromHexError where
  | InvalidStringLength
  | InvalidHexCharacter
  deriving DecidableEq, Repr

/-- Rust `<[u8; 64]>::from_hex`: the input must be exactly 128 hex characters. -/
def fromHexFixed64 (s : Str) : Except FromHexError (List Nat) :=
  if s.length ≠ 128 then .error .InvalidStringLength
  else
    match hexPairs s with
    | some bs => .ok bs
    | none => .error .InvalidHexCharacter

/- ---------------- data structures of src/chain/verify.rs ---------------- -/

/-- Errors when parsing a signature (`SignatureError` in verify.rs; the
misspelling `LENGHTERROR` is the source's). -/
inductive SignatureError where
  | PREFIXERROR
  | LENGHTERROR
  | TYPEERROR
  deriving DecidableEq, Repr

/-- `VerificationError` of verify.rs. -/
inductive VerificationError where
  | INVALIDSIGNERSIG (e : SignatureError)
  | INVALIDDATASIG (e : SignatureError)
  | SIGNERVERIFICATIONFAILED
  | DATAVERIFICATIONFAILED
  | OWNERSHIPVERIFICATIONFAILED
  | REQUESTERVERIFICATIONFAILED
  | MALFORMATEDDATA
  | MALFORMATEDSIGNER
  | INVALIDOWNERADDRESS
  | INVALIDSIGNERADDRESS
  | INVALIDAUTHTOKEN
  | INVALIDKEYSHARE
  | INVALIDNFTID
  | EXPIREDSIGNER
  | EXPIREDDATA
  | IDISNOTSECRETNFT
  | IDISNOTCAPSULE
  deriving DecidableEq, Repr

/-- Per-secret `AuthenticationToken` of verify.rs (two `u32` fields). -/
structure AuthenticationToken where
  block_number : Nat
  block_validation : Nat
  deriving DecidableEq, Repr

/-- `StoreKeyshareData` (the keyshare `Vec<u8>` is carried as its character
content, the form in which it travels through the delimited wire encoding). -/
structure StoreKeyshareData where
  nft_id : Nat
  keyshare : Str
  auth_token : AuthenticationToken
  deriving DecidableEq, Repr

/-- `Signer`: delegated signing account plus its validity window. -/
structure Signer where
  account : Account
  auth_token : AuthenticationToken
  deriving DecidableEq, Repr

/-- `StoreKeysharePacket`. -/
structure StoreKeysharePacket where
  owner_address : Account
  signer_address : Str
  signersig : Str
  data : Str
  signature : Str
  deriving DecidableEq, Repr

/-- `RetrieveKeyshareData`. -/
structure RetrieveKeyshareData where
  nft_id : Nat
  auth_token : AuthenticationToken
  deriving DecidableEq, Repr

/-- `RequesterType`. -/
inductive RequesterType where
  | OWNER
  | DELEGATEE
  | RENTEE
  | NONE
  deriving DecidableEq, Repr

/-- `RetrieveKeysharePacket`. -/
structure RetrieveKeysharePacket where
  requester_address : Account
  requester_type : RequesterType
  data : Str
  signature : Str
  deriving DecidableEq, Repr

/-- `KeyshareHolder`: chain-observed holder of an nft. -/
inductive KeyshareHolder where
  | Owner (a : Account)
  | Delegatee (a : Account)
  | Rentee (a : Account)
  | NotFound
  deriving DecidableEq, Repr

/-- On-chain nft record as consumed by this core (`get_onchain_nft_data`'s
owner plus the two state flags that are inspected). -/
structure NftData where
  owner : Account
  is_secret : Bool
  is_capsule : Bool
  deriving DecidableEq, Repr

/-- The chain-state oracle (external collaborator, §6 of the spec):
`get_onchain_nft_data`, `get_onchain_delegatee`, `get_onchain_rent_contract`. -/
structure Chain where
  nftData : Nat → Option NftData
  delegatee : Nat → Option Account
  rentee : Nat → Option Account

/- ---------------- decimal rendering (Rust `u32::to_string`) ---------------- -/

/-- Character of a decimal digit. -/
def digitChar (d : Nat) : Char := Char.ofNat (48 + d)

/-- Digits of `n`, most significant first; fuel-structured so that the kernel
can evaluate it ( `fuel ≥ n` suffices). -/
def natDigitsAux (fuel n : Nat) : Str :=
  match fuel with
  | 0 => []
  | fuel + 1 => if n = 0 then [] else natDigitsAux fuel (n / 10) ++ [digitChar (n % 10)]

/-- Rust `u32::to_string`. -/
def natToStr (n : Nat) : Str := if n = 0 then ['0'] else natDigitsAux n n

/- ---------------- token validity (verify.rs) ---------------- -/

/-- `AuthenticationToken::serialize`: `"{block_number}_{block_validation}"`. -/
def AuthenticationToken.serializeT (t : AuthenticationToken) : Str :=
  natToStr t.block_number ++ ['_'] ++ natToStr t.block_validation

/-- Per-secret `AuthenticationToken::is_valid` (verify.rs line 517):
`last_block_number > block_number - 3 && last_block_number < block_number +
block_validation + 3`, in wrapping `u32` arithmetic; the chain height obtained
from `get_current_block_number` is passed in as `lastBlock`. -/
def tokenIsValid (t : AuthenticationToken) (lastBlock : Nat) : Bool :=
  decide (sub32 t.block_number 3 < lastBlock) &&
    decide (lastBlock < add32 (add32 t.block_number t.block_validation) 3)

/-- `StoreKeyshareData::serialize`:
`"{nft_id}_{keyshare}_{block_number}_{block_validation}"`. -/
def StoreKeyshareData.serializeS (d : StoreKeyshareData) : Str :=
  natToStr d.nft_id ++ ['_'] ++ d.keyshare ++ ['_'] ++ d.auth_token.serializeT

/- ---------------- packet parsing (verify.rs) ---------------- -/

/-- The signer-field shape check and field extraction of
`StoreKeysharePacket::get_signer` after the split: at least 3 parts
(`parsed_data.len() < 3` is rejected, extra parts are ignored), part 0 an
ss58 account, parts 1 and 2 `u32` numbers. `ss58` is the
`sr25519::Public::from_ss58check` oracle. -/
def signerParts (ss58 : Str → Option Account) :
    List Str → Except VerificationError Signer
  | a :: b :: c :: _ =>
    match ss58 a with
    | none => .error .INVALIDSIGNERADDRESS
    | some account =>
      match parseU32 b with
      | none => .error .INVALIDAUTHTOKEN
      | some block_num =>
        match parseU32 c with
        | none => .error .INVALIDAUTHTOKEN
        | some block_valid =>
          .ok ⟨account, ⟨block_num, block_valid⟩⟩
  | _ => .error .MALFORMATEDSIGNER

/-- `StoreKeysharePacket::get_signer`. -/
def getSigner (ss58 : Str → Option Account) (p : StoreKeysharePacket) :
    Except VerificationError Signer :=
  let signer := stripMarkers p.signer_address
  if hasDelim signer = false then .error .MALFORMATEDSIGNER
  else signerParts ss58 (splitU signer)

/-- The 4-part shape check and field extraction of
`StoreKeysharePacket::parse_store_data` after the split: exactly 4 parts,
nft_id a `u32`, non-empty keyshare, two `u32` token fields. -/
def storeParts : List Str → Except VerificationError StoreKeyshareData
  | [a, k, b, v] =>
    match parseU32 a with
    | none => .error .INVALIDNFTID
    | some nft_id =>
      if k = [] then .error .INVALIDKEYSHARE
      else
        match parseU32 b with
        | none => .error .INVALIDAUTHTOKEN
        | some block_number =>
          match parseU32 v with
          | none => .error .INVALIDAUTHTOKEN
          | some block_validation =>
            .ok ⟨nft_id, k, ⟨block_number, block_validation⟩⟩
  | _ => .error .MALFORMATEDDATA

/-- `StoreKeysharePacket::parse_store_data` on the raw data field. -/
def parseStoreDataCore (data0 : Str) : Except VerificationError StoreKeyshareData :=
  let data := stripMarkers data0
  if hasDelim data = false then .error .MALFORMATEDDATA
  else storeParts (splitU data)

/-- `StoreKeysharePacket::parse_store_data`. -/
def parseStoreData (p : StoreKeysharePacket) : Except VerificationError StoreKeyshareData :=
  parseStoreDataCore p.data

/-- The 3-part shape check and field extraction of
`RetrieveKeysharePacket::parse_retrieve_data` after the split. -/
def retrieveParts : List Str → Except VerificationError RetrieveKeyshareData
  | [a, b, v] =>
    match parseU32 a with
    | none => .error .INVALIDNFTID
    | some nft_id =>
      match parseU32 b with
      | none => .error .INVALIDAUTHTOKEN
      | some block_number =>
        match parseU32 v with
        | none => .error .INVALIDAUTHTOKEN
        | some block_validation =>
          .ok ⟨nft_id, ⟨block_number, block_validation⟩⟩
  | _ => .error .MALFORMATEDDATA

/-- `RetrieveKeysharePacket::parse_retrieve_data` on the raw data field. -/
def parseRetrieveDataCore (data0 : Str) : Except VerificationError RetrieveKeyshareData :=
  let data := stripMarkers data0
  if hasDelim data = false then .error .MALFORMATEDDATA
  else retrieveParts (splitU data)

/-- `RetrieveKeysharePacket::parse_retrieve_data`. -/
def parseRetrieveData (p : RetrieveKeysharePacket) :
    Except VerificationError RetrieveKeyshareData :=
  parseRetrieveDataCore p.data

/- ---------------- signature parsing (verify.rs) ---------------- -/

/-- Signature bytes. -/
abbrev Sig := List Nat

/-- The hex prefix "0x". -/
def hexMark : Str := "0x".toList

/-- `sig.strip_prefix("0x")` with mandatory prefix followed by
`<[u8; 64]>::from_hex` — the common body of `StoreKeysharePacket::parse_signature`
and `RetrieveKeysharePacket::parse_signature`. -/
def parseSigString (s : Str) : Except SignatureError Sig :=
  match (if hexMark.isPrefixOf s then some (s.drop 2) else none) with
  | none => .error .PREFIXERROR
  | some stripSig =>
    match fromHexFixed64 stripSig with
    | .ok b => .ok b
    | .error _ => .error .LENGHTERROR

/-- The "owner" signature-slot name. -/
def ownerSlot : Str := "owner".toList

/-- The "signer" signature-slot name. -/
def signerSlot : Str := "signer".toList

/-- `StoreKeysharePacket::parse_signature`: the slot name selects which of the
packet's two signature strings is parsed. -/
def parseSignatureStore (p : StoreKeysharePacket) (slot : Str) :
    Except SignatureError Sig :=
  if slot = ownerSlot then parseSigString p.signature
  else if slot = signerSlot then parseSigString p.signersig
  else .error .TYPEERROR

/- ---------------- requester classification (verify.rs) ---------------- -/

/-- `get_onchain_delegatee_account`. -/
def getOnchainDelegateeAccount (ch : Chain) (nft_id : Nat) : KeyshareHolder :=
  match ch.delegatee nft_id with
  | some account => .Delegatee account
  | none => .NotFound

/-- `get_onchain_rentee_account`. -/
def getOnchainRenteeAccount (ch : Chain) (nft_id : Nat) : KeyshareHolder :=
  match ch.rentee nft_id with
  | some account => .Rentee account
  | none => .NotFound

/-- `verify_requester_type` (verify.rs line 482): check the claimed
owner/delegatee/rentee relationship against chain state. -/
def verifyRequesterType (ch : Chain) (requester_address : Account) (nft_id : Nat)
    (owner : Account) (requester_type : RequesterType) : Bool :=
  match requester_type with
  | .OWNER | .NONE => owner == requester_address
  | .DELEGATEE =>
    match getOnchainDelegateeAccount ch nft_id with
    | .Delegatee delegatee => delegatee == requester_address
    | _ => false
  | .RENTEE =>
    match getOnchainRenteeAccount ch nft_id with
    | .Rentee rentee => rentee == requester_address
    | _ => false

/- ---------------- store-request verification (verify.rs) ---------------- -/

/-- The sr25519 signature-verification oracle
`sr25519::Pair::verify(sig, message, public)` (external cryptography). -/
abbrev SigVerify := Sig → Str → Account → Bool

/-- `StoreKeysharePacket::verify_signer`: parse the signer field (collapsing
every parse failure to `INVALIDSIGNERADDRESS`), check the signer token window
at the current height, parse the "signer" slot signature, and verify it over
the raw signer field against the owner account. -/
def verifySigner (ss58 : Str → Option Account) (sv : SigVerify) (h : Nat)
    (p : StoreKeysharePacket) : Except VerificationError Bool :=
  match getSigner ss58 p with
  | .error _ => .error .INVALIDSIGNERADDRESS
  | .ok signer =>
    if tokenIsValid signer.auth_token h = false then .error .EXPIREDSIGNER
    else
      match parseSignatureStore p signerSlot with
      | .error e => .error (.INVALIDSIGNERSIG e)
      | .ok signersig => .ok (sv signersig p.signer_address p.owner_address)

/-- `StoreKeysharePacket::verify_data`: parse the signer field (propagating its
errors), parse the "owner" slot signature, parse the data field, and verify the
signature over the raw data field against the delegated signer account. -/
def verifyData (ss58 : Str → Option Account) (sv : SigVerify)
    (p : StoreKeysharePacket) : Except VerificationError Bool :=
  match getSigner ss58 p with
  | .error e => .error e
  | .ok signer =>
    match parseSignatureStore p ownerSlot with
    | .error e => .error (.INVALIDDATASIG e)
    | .ok packetsig =>
      match parseStoreData p with
      | .error e => .error e
      | .ok _ => .ok (sv packetsig p.data signer.account)

/-- The "secret-nft" nft_type tag. -/
def secretNftTag : Str := "secret-nft".toList

/-- The "capsule" nft_type tag. -/
def capsuleTag : Str := "capsule".toList

/-- `StoreKeysharePacket::verify_store_request` (verify.rs line 705). -/
def verifyStoreRequest (ss58 : Str → Option Account) (sv : SigVerify) (ch : Chain)
    (h : Nat) (p : StoreKeysharePacket) (nft_type : Str) :
    Except VerificationError StoreKeyshareData :=
  match verifySigner ss58 sv h p with
  | .ok true =>
    match verifyData ss58 sv p with
    | .ok true =>
      match parseStoreData p with
      | .error e => .error e
      | .ok parsed_data =>
        match ch.nftData parsed_data.nft_id with
        | none => .error .INVALIDNFTID
        | some onchain_nft_data =>
          if nft_type = secretNftTag ∧ onchain_nft_data.is_secret = false then
            .error .IDISNOTSECRETNFT
          else if nft_type = capsuleTag ∧ onchain_nft_data.is_capsule = false then
            .error .IDISNOTCAPSULE
          else if tokenIsValid parsed_data.auth_token h = false then
            .error .EXPIREDDATA
          else if verifyRequesterType ch p.owner_address parsed_data.nft_id
              onchain_nft_data.owner .OWNER then
            .ok parsed_data
          else .error .OWNERSHIPVERIFICATIONFAILED
    | .ok false => .error .DATAVERIFICATIONFAILED
    | .error e => .error e
  | .ok false => .error .SIGNERVERIFICATIONFAILED
  | .error e => .error e

/- ---------------- retrieve-request verification (verify.rs) ---------------- -/

/-- `RetrieveKeysharePacket::verify_data`: parse the data field, check the
token window, parse the single signature (reporting parse failures as
`INVALIDSIGNERSIG`), and verify it against the requester account. -/
def verifyDataRetrieve (sv : SigVerify) (h : Nat) (p : RetrieveKeysharePacket) :
    Except VerificationError Bool :=
  match parseRetrieveData p with
  | .error e => .error e
  | .ok data =>
    if tokenIsValid data.auth_token h = false then .error .EXPIREDDATA
    else
      match parseSigString p.signature with
      | .error e => .error (.INVALIDSIGNERSIG e)
      | .ok sig => .ok (sv sig p.data p.requester_address)

/-- `RetrieveKeysharePacket::verify_retrieve_request` (verify.rs line 872). -/
def verifyRetrieveRequest (sv : SigVerify) (ch : Chain) (h : Nat)
    (p : RetrieveKeysharePacket) (nft_type : Str) :
    Except VerificationError RetrieveKeyshareData :=
  match verifyDataRetrieve sv h p with
  | .ok true =>
    match parseRetrieveData p with
    | .error e => .error e
    | .ok parsed_data =>
      match ch.nftData parsed_data.nft_id with
      | none => .error .INVALIDNFTID
      | some onchain_nft_data =>
        if nft_type = secretNftTag ∧ onchain_nft_data.is_secret = false then
          .error .IDISNOTSECRETNFT
        else if nft_type = capsuleTag ∧ onchain_nft_data.is_capsule = false then
          .error .IDISNOTCAPSULE
        else if tokenIsValid parsed_data.auth_token h = false then
          .error .EXPIREDDATA
        else if verifyRequesterType ch p.requester_address parsed_data.nft_id
            onchain_nft_data.owner p.requester_type then
          .ok parsed_data
        else .error .REQUESTERVERIFICATIONFAILED
  | .ok false => .error .SIGNERVERIFICATIONFAILED
  | .error e => .error e

/-- `RetrieveKeysharePacket::verify_free_retrieve_request` (verify.rs line 924):
authenticity-only variant, no chain authorization. -/
def verifyFreeRetrieveRequest (sv : SigVerify) (h : Nat)
    (p : RetrieveKeysharePacket) : Except VerificationError RetrieveKeyshareData :=
  match parseRetrieveData p with
  | .error e => .error e
  | .ok data =>
    match verifyDataRetrieve sv h p with
    | .ok true => .ok data
    | .ok false => .error .DATAVERIFICATIONFAILED
    | .error e => .error e

/- ================ src/backup/admin_nftid.rs ================ -/

namespace Admin

/-- `MAX_VALIDATION_PERIOD`. -/
def MAX_VALIDATION_PERIOD : Nat := 20

/-- `MAX_BLOCK_VARIATION`. -/
def MAX_BLOCK_VARIATION : Nat := 5

/-- Hash-bound admin `AuthenticationToken` (block_number `u32`,
block_validation `u8`, data_hash a hex digest string). -/
structure AuthenticationToken where
  block_number : Nat
  block_validation : Nat
  data_hash : Str
  deriving DecidableEq, Repr

/-- `ValidationResult` of admin_nftid.rs. -/
inductive ValidationResult where
  | Success
  | ErrorRpcCall
  | ExpiredBlockNumber
  | FutureBlockNumber
  | InvalidPeriod
  deriving DecidableEq, Repr

/-- Admin `AuthenticationToken::is_valid` (admin_nftid.rs line 96). The result
of `get_current_block_number` is passed as `height` (`none` models the RPC
failure). `u32` subtraction and `u8` addition wrap as in the source. -/
def isValid (t : AuthenticationToken) (height : Option Nat) : ValidationResult :=
  match height with
  | none => .ErrorRpcCall
  | some last_block_number =>
    if last_block_number < sub32 t.block_number MAX_BLOCK_VARIATION then
      .ExpiredBlockNumber
    else if MAX_VALIDATION_PERIOD < t.block_validation then
      .InvalidPeriod
    else if add32 t.block_number ((t.block_validation + MAX_BLOCK_VARIATION) % 256)
        < last_block_number then
      .FutureBlockNumber
    else .Success

/-- `get_signature` (admin_nftid.rs line 179): the "0x" mark is stripped when
present (it is OPTIONAL here), then `<[u8; 64]>::from_hex`. -/
def getSignature (signature : Str) : Except FromHexError Sig :=
  let stripped := if hexMark.isPrefixOf signature then signature.drop 2 else signature
  fromHexFixed64 stripped

/-- `FetchIdPacket`. -/
structure FetchIdPacket where
  admin_address : Str
  nftid_vec : Str
  auth_token : Str
  signature : Str
  deriving DecidableEq, Repr

/-- Exit paths of `admin_backup_fetch_id`. -/
inductive Exit where
  | NotWhitelisted
  | TokenPrefixStrip
  | TokenSuffixStrip
  | TokenUnparsable
  | BadSignature
  | TokenInvalid
  | HashMismatch
  | NftVecUnparsable
  | FileNotFound
  | Success
  deriving DecidableEq, Repr

/-- External collaborators of `admin_backup_fetch_id`: the compiled-in
whitelist, `serde_json` parsing of the token and of the nftid vector, the
sr25519 signature check (`verify_signature(account, sig, message)`), the chain
height, the sha256 digest, and whether the produced backup file opens. -/
structure Env where
  whitelist : List Str
  parseToken : Str → Option AuthenticationToken
  verifySig : Str → Str → Str → Bool
  height : Option Nat
  sha256 : Str → Str
  parseNftVec : Str → Option (List Nat)
  fileOpen : Bool

/-- The maintenance message set on entry
("Encalve is doing backup, please wait..." — the typo is the source's). -/
def busyMsg : Str := "Encalve is doing backup, please wait...".toList

/-- `strip_prefix("<Bytes>")` as used on the admin token. -/
def stripTokenOpen (s : Str) : Option Str :=
  if bytesOpen.isPrefixOf s then some (s.drop 7) else none

/-- `strip_suffix("</Bytes>")` as used on the admin token. -/
def stripTokenClose (s : Str) : Option Str :=
  if bytesClose.isSuffixOf s then some (dropEnd s 8) else none

/-- `admin_backup_fetch_id` (admin_nftid.rs line 247), as a state-passing
function: the shared maintenance-status string starts at `busyMsg`
(`update_health_status` on entry) and each `error_handler` exit clears it; the
result is the exit taken together with the maintenance status at return time.
The file-zipping itself is out of scope; `env.fileOpen` tells whether
`tokio::fs::File::open` of the produced archive succeeds. -/
def adminBackupFetchId (env : Env) (req : FetchIdPacket) : Exit × Str :=
  -- update_health_status(&state, "Encalve is doing backup, please wait...")
  let maintenance := busyMsg
  if env.whitelist.contains req.admin_address = false then
    (.NotWhitelisted, [])
  else
    let authRes : Except Exit Str :=
      if bytesOpen.isPrefixOf req.auth_token && bytesClose.isSuffixOf req.auth_token then
        match stripTokenOpen req.auth_token with
        | none => .error .TokenPrefixStrip
        | some a1 =>
          match stripTokenClose a1 with
          | none => .error .TokenSuffixStrip
          | some a2 => .ok a2
      else .ok req.auth_token
    match authRes with
    | .error e => (e, [])
    | .ok auth =>
      match env.parseToken auth with
      | none => (.TokenUnparsable, [])
      | some auth_token =>
        if env.verifySig req.admin_address req.signature req.auth_token = false then
          (.BadSignature, [])
        else
          match isValid auth_token env.height with
          | .Success =>
            if auth_token.data_hash ≠ env.sha256 req.nftid_vec then
              (.HashMismatch, [])
            else
              match env.parseNftVec req.nftid_vec with
              | none => (.NftVecUnparsable, [])
              | some _ =>
                if env.fileOpen then
                  -- final update_health_status(&state, String::new())
                  (.Success, [])
                else
                  -- early `return Json(...)` that skips the clearing step
                  (.FileNotFound, maintenance)
          | _ => (.TokenInvalid, [])

end Admin

/- ================ helper lemmas ================ -/

theorem sub32_eq {a b : Nat} (hb : b ≤ a) (ha : a < W) : sub32 a b = a - b := by
  have ha' : a < 4294967296 := ha
  simp only [sub32, W]
  omega

theorem add32_eq {a b : Nat} (h : a + b < W) : add32 a b = a + b := by
  have h' : a + b < 4294967296 := h
  simp only [add32, W]
  omega

/-- Window characterization of the per-secret token check, wrap-free range. -/
theorem tokenValid_iff (bn bv h : Nat) (h3 : 3 ≤ bn) (hw : bn + bv + 3 < W) :
    tokenIsValid ⟨bn, bv⟩ h = true ↔ (bn - 3 < h ∧ h < bn + bv + 3) := by
  have hbn : bn < W := by omega
  have h1 : sub32 bn 3 = bn - 3 := sub32_eq h3 hbn
  have h2 : add32 bn bv = bn + bv := add32_eq (by omega)
  have h3' : add32 (bn + bv) 3 = bn + bv + 3 := add32_eq (by omega)
  simp only [tokenIsValid, h1, h2, h3', Bool.and_eq_true, decide_eq_true_eq]

/- ================ C1 ================ -/

/-- C1 (amended): for a per-secret token in the wrap-free range, `is_valid` at
an observed height returns true if and only if the height lies in the OPEN
interval (block_number−3, block_number+block_validation+3) — both comparisons
in the source are strict — so it returns false at height exactly
block_number−3, true at block_number−2, and false at
block_number+block_validation+3. -/
theorem C1_token_validity_window (bn bv h : Nat) (h3 : 3 ≤ bn)
    (hw : bn + bv + 3 < W) :
    (tokenIsValid ⟨bn, bv⟩ h = true ↔ (bn - 3 < h ∧ h < bn + bv + 3)) ∧
    tokenIsValid ⟨bn, bv⟩ (bn - 3) = false ∧
    tokenIsValid ⟨bn, bv⟩ (bn - 2) = true ∧
    tokenIsValid ⟨bn, bv⟩ (bn + bv + 3) = false := by
  refine ⟨tokenValid_iff bn bv h h3 hw, ?_, ?_, ?_⟩
  · rw [Bool.eq_false_iff]
    intro hcontra
    rw [tokenValid_iff bn bv _ h3 hw] at hcontra
    omega
  · exact (tokenValid_iff bn bv _ h3 hw).mpr (by omega)
  · rw [Bool.eq_false_iff]
    intro hcontra
    rw [tokenValid_iff bn bv _ h3 hw] at hcontra
    omega

/-- C1 witness: the amended window theorem applied to the concrete token
(block_number 100, block_validation 10): heights 97 and 113 are rejected,
height 98 is accepted. -/
theorem C1_token_validity_window_witness :
    tokenIsValid ⟨100, 10⟩ 97 = false ∧ tokenIsValid ⟨100, 10⟩ 98 = true ∧
      tokenIsValid ⟨100, 10⟩ 113 = false :=
  ⟨(C1_token_validity_window 100 10 0 (by decide) (by decide)).2.1,
   (C1_token_validity_window 100 10 0 (by decide) (by decide)).2.2.1,
   (C1_token_validity_window 100 10 0 (by decide) (by decide)).2.2.2⟩

/-- C1 counterexample: the claim says `is_valid` returns true at height exactly
block_number−3; for the token (100, 10) the code returns false at height 97. -/
theorem C1_counterexample : tokenIsValid ⟨100, 10⟩ 97 = false := by decide

/- ================ C2 ================ -/

/-- C2: verify_requester_type returns true iff the claimed type is OWNER or
NONE and the requester equals the on-chain owner, or the claimed type is
DELEGATEE and the chain delegatee lookup returns exactly the requester, or the
claimed type is RENTEE and the chain rent-contract lookup returns exactly the
requester; absent lookups never authorize. -/
theorem C2_verify_requester_type (ch : Chain) (req : Account) (nid : Nat)
    (owner : Account) (rt : RequesterType) :
    verifyRequesterType ch req nid owner rt = true ↔
      (((rt = .OWNER ∨ rt = .NONE) ∧ owner = req) ∨
       (rt = .DELEGATEE ∧ ch.delegatee nid = some req) ∨
       (rt = .RENTEE ∧ ch.rentee nid = some req)) := by
  cases rt with
  | OWNER => simp [verifyRequesterType, beq_iff_eq]
  | NONE => simp [verifyRequesterType, beq_iff_eq]
  | DELEGATEE =>
    cases hd : ch.delegatee nid with
    | none => simp [verifyRequesterType, getOnchainDelegateeAccount, hd]
    | some a =>
      simp [verifyRequesterType, getOnchainDelegateeAccount, hd, beq_iff_eq]
  | RENTEE =>
    cases hr : ch.rentee nid with
    | none => simp [verifyRequesterType, getOnchainRenteeAccount, hr]
    | some a =>
      simp [verifyRequesterType, getOnchainRenteeAccount, hr, beq_iff_eq]

/- ================ C4 ================ -/

/-- C4 (amended): the admin hash-bound `is_valid` returns ErrorRpcCall when the
chain height cannot be obtained; given a height, the checks run in source
order: ExpiredBlockNumber takes precedence whenever the height is below
block_number−MAX_BLOCK_VARIATION (even when block_validation exceeds
MAX_VALIDATION_PERIOD), then InvalidPeriod when block_validation > 20, then
FutureBlockNumber above block_number+block_validation+MAX_BLOCK_VARIATION,
else Success; for block_validation ≤ 20 the Success outcome is equivalent to
the height lying in the closed interval
[block_number−5, block_number+block_validation+5]. -/
theorem C4_admin_token_validation (t : Admin.AuthenticationToken) (h : Nat)
    (h5 : 5 ≤ t.block_number) (hw : t.block_number + 25 < W)
    (hbv : t.block_validation < 256) :
    Admin.isValid t none = .ErrorRpcCall ∧
    Admin.isValid t (some h) =
      (if h < t.block_number - 5 then .ExpiredBlockNumber
       else if 20 < t.block_validation then .InvalidPeriod
       else if t.block_number + t.block_validation + 5 < h then .FutureBlockNumber
       else .Success) ∧
    (t.block_validation ≤ 20 →
      (Admin.isValid t (some h) = .Success ↔
        (t.block_number - 5 ≤ h ∧ h ≤ t.block_number + t.block_validation + 5))) := by
  have hw' : t.block_number + 25 < 4294967296 := hw
  have hbnW : t.block_number < W := by show _ < 4294967296; omega
  have hsub : sub32 t.block_number 5 = t.block_number - 5 := sub32_eq h5 hbnW
  have hmain : Admin.isValid t (some h) =
      (if h < t.block_number - 5 then .ExpiredBlockNumber
       else if 20 < t.block_validation then .InvalidPeriod
       else if t.block_number + t.block_validation + 5 < h then .FutureBlockNumber
       else .Success) := by
    simp only [Admin.isValid, Admin.MAX_VALIDATION_PERIOD, Admin.MAX_BLOCK_VARIATION,
      hsub]
    by_cases h1 : h < t.block_number - 5
    · simp [h1]
    · simp only [if_neg h1]
      by_cases h2 : 20 < t.block_validation
      · simp [h2]
      · have hm : (t.block_validation + 5) % 256 = t.block_validation + 5 :=
          Nat.mod_eq_of_lt (by omega)
        have ha : add32 t.block_number (t.block_validation + 5) =
            t.block_number + t.block_validation + 5 := by
          rw [add32_eq (by show _ < 4294967296; omega)]
          omega
        simp [h2, hm, ha]
  refine ⟨rfl, hmain, fun hbv20 => ?_⟩
  rw [hmain]
  split_ifs with h1 h2 h3 <;> simp <;> omega

/-- C4 witness: the amended theorem at the concrete admin token
(block_number 1000, block_validation 10) and height 1000: Success, matching
the closed window [995, 1015]. -/
theorem C4_admin_token_validation_witness :
    Admin.isValid ⟨1000, 10, []⟩ (some 1000) = .Success :=
  ((C4_admin_token_validation ⟨1000, 10, []⟩ 1000 (by decide) (by decide)
    (by decide)).2.2 (by decide)).mpr (by decide)

/-- C4 counterexample: the claim says InvalidPeriod is returned whenever
block_validation exceeds 20, but for the token (block_number 100,
block_validation 21) at observed height 90 the code returns
ExpiredBlockNumber — the below-window check runs first. -/
theorem C4_counterexample :
    Admin.isValid ⟨100, 21, []⟩ (some 90) = .ExpiredBlockNumber ∧
      Admin.ValidationResult.ExpiredBlockNumber ≠ .InvalidPeriod :=
  ⟨by decide, by decide⟩

/- ================ C5 ================ -/

theorem hexPairs_some_of_all : ∀ s : Str, s.all isHexDigit = true →
    s.length % 2 = 0 → ∃ bs, hexPairs s = some bs
  | [], _, _ => ⟨[], rfl⟩
  | [a], _, hlen => by simp at hlen
  | a :: b :: rest, hall, hlen => by
    simp only [List.all_cons, Bool.and_eq_true] at hall
    obtain ⟨ha, hb, hrest⟩ := hall
    obtain ⟨bs, hbs⟩ := hexPairs_some_of_all rest hrest
      (by simp only [List.length_cons] at hlen ⊢; omega)
    obtain ⟨x, hx⟩ := Option.isSome_iff_exists.mp ha
    obtain ⟨y, hy⟩ := Option.isSome_iff_exists.mp hb
    exact ⟨(16 * x + y) :: bs, by simp [hexPairs, hx, hy, hbs]⟩

theorem all_hex_of_hexPairs_some : ∀ s : Str, ∀ bs, hexPairs s = some bs →
    s.all isHexDigit = true
  | [], _, _ => rfl
  | [a], bs, h => by simp [hexPairs] at h
  | a :: b :: rest, bs, h => by
    simp only [hexPairs] at h
    cases hva : hexVal a <;> rw [hva] at h
    · simp at h
    · cases hvb : hexVal b <;> rw [hvb] at h
      · simp at h
      · cases hpr : hexPairs rest <;> rw [hpr] at h
        · simp at h
        · simp [List.all_cons, isHexDigit, hva, hvb,
            all_hex_of_hexPairs_some rest _ hpr]

/-- Exact behavior of `<[u8; 64]>::from_hex`. -/
theorem fromHexFixed64_spec (s : Str) :
    (s.length ≠ 128 → fromHexFixed64 s = .error .InvalidStringLength) ∧
    (s.length = 128 → s.all isHexDigit = true → ∃ bs, fromHexFixed64 s = .ok bs) ∧
    (s.length = 128 → s.all isHexDigit = false →
      fromHexFixed64 s = .error .InvalidHexCharacter) := by
  refine ⟨fun hne => by simp [fromHexFixed64, hne], fun hlen hall => ?_, fun hlen hall => ?_⟩
  · obtain ⟨bs, hbs⟩ := hexPairs_some_of_all s hall (by omega)
    exact ⟨bs, by simp [fromHexFixed64, hlen, hbs]⟩
  · cases hp : hexPairs s with
    | none => simp [fromHexFixed64, hlen, hp]
    | some bs =>
      have := all_hex_of_hexPairs_some s bs hp
      rw [this] at hall
      exact absurd hall (by simp)

/-- C5 (amended): the store-packet parse_signature behaves as claimed —
TYPEERROR for an unrecognized slot name, PREFIXERROR whenever the selected
signature string lacks the literal 0x prefix, LENGHTERROR whenever the
prefixed remainder is not exactly 128 hex characters, and success on a
prefixed 128-hex-character signature. The admin get_signature, however,
treats the 0x prefix as OPTIONAL: it strips the prefix when present, decodes
the remainder, and reports only hex-decoding failures (InvalidStringLength /
InvalidHexCharacter) — an unprefixed 128-hex string succeeds there instead of
failing with PrefixError. -/
theorem C5_signature_parsing (p : StoreKeysharePacket) (slot s : Str) :
    (slot ≠ ownerSlot → slot ≠ signerSlot →
      parseSignatureStore p slot = .error .TYPEERROR) ∧
    (hexMark.isPrefixOf s = false → parseSigString s = .error .PREFIXERROR) ∧
    (hexMark.isPrefixOf s = true →
      ((s.drop 2).length = 128 ∧ (s.drop 2).all isHexDigit = true →
        ∃ bs, parseSigString s = .ok bs) ∧
      (¬ ((s.drop 2).length = 128 ∧ (s.drop 2).all isHexDigit = true) →
        parseSigString s = .error .LENGHTERROR)) ∧
    (Admin.getSignature s =
      fromHexFixed64 (if hexMark.isPrefixOf s then s.drop 2 else s)) := by
  refine ⟨fun h1 h2 => by simp [parseSignatureStore, h1, h2],
    fun hpre => by simp [parseSigString, hpre],
    fun hpre => ⟨fun ⟨hlen, hall⟩ => ?_, fun hno => ?_⟩, rfl⟩
  · obtain ⟨bs, hbs⟩ := ((fromHexFixed64_spec (s.drop 2)).2.1) hlen hall
    exact ⟨bs, by simp [parseSigString, hpre, hbs]⟩
  · by_cases hlen : (s.drop 2).length = 128
    · have hall : (s.drop 2).all isHexDigit = false := by
        rcases hb : (s.drop 2).all isHexDigit
        · rfl
        · exact absurd ⟨hlen, hb⟩ hno
      have := (fromHexFixed64_spec (s.drop 2)).2.2 hlen hall
      simp [parseSigString, hpre, this]
    · have := (fromHexFixed64_spec (s.drop 2)).1 hlen
      simp [parseSigString, hpre, this]

/-- C5 witness: the amended theorem applied at the concrete unprefixed
signature "ab" and the unknown slot name "other": TYPEERROR for the slot and
PREFIXERROR from the store-packet parser, while the admin parser reports the
hex length failure. -/
theorem C5_signature_parsing_witness :
    parseSignatureStore ⟨[], [], [], [], []⟩ "other".toList = .error .TYPEERROR ∧
      parseSigString "ab".toList = .error .PREFIXERROR :=
  ⟨(C5_signature_parsing ⟨[], [], [], [], []⟩ "other".toList "ab".toList).1
      (by decide) (by decide),
   (C5_signature_parsing ⟨[], [], [], [], []⟩ "other".toList "ab".toList).2.1
      (by decide)⟩

/-- C5 counterexample: a 128-hex-character signature WITHOUT the 0x prefix is
accepted by the admin get_signature (it decodes to 64 zero bytes), whereas the
claim requires every unprefixed signature string to fail with PrefixError in
both parsers. -/
theorem C5_counterexample :
    Admin.getSignature (List.replicate 128 '0') = .ok (List.replicate 64 0) := by
  decide

/- ================ list-splitting lemmas ================ -/

theorem splitU_ne_nil : ∀ s : Str, splitU s ≠ []
  | [] => by simp [splitU]
  | c :: rest => by
    simp only [splitU]
    by_cases hc : c = '_'
    · simp [hc]
    · simp only [if_neg hc]
      cases h : splitU rest <;> simp

theorem splitU_cons_head (c : Char) (t : Str) (hc : ¬ c = '_') :
    ∃ p ps, splitU (c :: t) = (c :: p) :: ps := by
  simp only [splitU, if_neg hc]
  cases h : splitU t with
  | nil => exact ⟨[], [], rfl⟩
  | cons p ps => exact ⟨p, ps, rfl⟩

theorem splitU_getLast_append : ∀ (pre : Str) (c : Char), ¬ c = '_' →
    ∃ q, (splitU (pre ++ [c])).getLast? = some (q ++ [c])
  | [], c, hc => ⟨[], by simp [splitU, if_neg hc]⟩
  | a :: pre, c, hc => by
    obtain ⟨q, hq⟩ := splitU_getLast_append pre c hc
    by_cases ha : a = '_'
    · cases hsp : splitU (pre ++ [c]) with
      | nil => exact absurd hsp (splitU_ne_nil _)
      | cons x xs =>
        refine ⟨q, ?_⟩
        rw [hsp] at hq
        simp only [List.cons_append, splitU, if_pos ha, List.append_eq, hsp]
        rw [List.getLast?_cons_cons]
        exact hq
    · cases hsp : splitU (pre ++ [c]) with
      | nil => exact absurd hsp (splitU_ne_nil _)
      | cons x xs =>
        rw [hsp] at hq
        cases xs with
        | nil =>
          refine ⟨a :: q, ?_⟩
          simp only [List.cons_append, splitU, if_neg ha, List.append_eq, hsp]
          simp only [List.getLast?_singleton, Option.some.injEq] at hq
          simp [hq]
        | cons y ys =>
          refine ⟨q, ?_⟩
          simp only [List.cons_append, splitU, if_neg ha, List.append_eq, hsp]
          rw [List.getLast?_cons_cons]
          rw [List.getLast?_cons_cons] at hq
          exact hq

theorem parseU32_head_nondigit (c : Char) (p : Str) (hd : c.isDigit = false)
    (hp : ¬ c = '+') : parseU32 (c :: p) = none := by
  simp [parseU32, if_neg hp, parseU32core, List.all_cons, hd]

theorem parseU32_append_nondigit (q : Str) (c : Char) (hd : c.isDigit = false) :
    parseU32 (q ++ [c]) = none := by
  cases q with
  | nil =>
    by_cases hp : c = '+'
    · subst hp; decide
    · exact parseU32_head_nondigit c [] hd hp
  | cons a q' =>
    by_cases hp : a = '+'
    · subst hp
      simp only [List.cons_append, parseU32, if_pos rfl]
      simp [parseU32core, List.all_append, List.all_cons, hd]
    · simp only [List.cons_append, parseU32, if_neg hp]
      simp [parseU32core, List.all_append, List.all_cons, hd]

/- ================ C6 ================ -/

/-- A field carrying exactly one of the two wrapper markers. -/
abbrev singleMarker (s : Str) : Prop :=
  (bytesOpen.isPrefixOf s = true ∧ bytesClose.isSuffixOf s = false) ∨
    (bytesOpen.isPrefixOf s = false ∧ bytesClose.isSuffixOf s = true)

theorem stripMarkers_single {s : Str} (h : singleMarker s) : stripMarkers s = s := by
  rcases h with ⟨h1, h2⟩ | ⟨h1, h2⟩ <;> simp [stripMarkers, h1, h2]

theorem storeParts_last_bad (a k b v : Str) (hv : parseU32 v = none) :
    ∃ e, storeParts [a, k, b, v] = .error e := by
  cases ha : parseU32 a with
  | none => exact ⟨.INVALIDNFTID, by simp [storeParts, ha]⟩
  | some n =>
    by_cases hk : k = []
    · exact ⟨.INVALIDKEYSHARE, by simp [storeParts, ha, hk]⟩
    · cases hb : parseU32 b with
      | none => exact ⟨.INVALIDAUTHTOKEN, by simp [storeParts, ha, hk, hb]⟩
      | some m => exact ⟨.INVALIDAUTHTOKEN, by simp [storeParts, ha, hk, hb, hv]⟩

theorem retrieveParts_last_bad (a b v : Str) (hv : parseU32 v = none) :
    ∃ e, retrieveParts [a, b, v] = .error e := by
  cases ha : parseU32 a with
  | none => exact ⟨.INVALIDNFTID, by simp [retrieveParts, ha]⟩
  | some n =>
    cases hb : parseU32 b with
    | none => exact ⟨.INVALIDAUTHTOKEN, by simp [retrieveParts, ha, hb]⟩
    | some m => exact ⟨.INVALIDAUTHTOKEN, by simp [retrieveParts, ha, hb, hv]⟩

/-- Any single-marker data field makes `parse_store_data` fail. -/
theorem parseStoreDataCore_single_marker (s : Str) (h : singleMarker s) :
    ∃ e, parseStoreDataCore s = .error e := by
  have hstrip := stripMarkers_single h
  by_cases hdel : hasDelim s = false
  · exact ⟨.MALFORMATEDDATA, by simp [parseStoreDataCore, hstrip, hdel]⟩
  · have hcore : parseStoreDataCore s = storeParts (splitU s) := by
      simp only [parseStoreDataCore, hstrip]
      rw [if_neg hdel]
    rcases h with ⟨h1, _⟩ | ⟨_, h2⟩
    · -- prefix marker only: the first split part begins with '<'
      obtain ⟨r, hr⟩ := List.isPrefixOf_iff_prefix.mp h1
      have hs : s = '<' :: ("Bytes>".toList ++ r) := by rw [← hr]; rfl
      obtain ⟨p, ps, hsp⟩ := splitU_cons_head '<' ("Bytes>".toList ++ r) (by decide)
      rw [hcore, hs, hsp]
      rcases ps with _ | ⟨k, _ | ⟨b, _ | ⟨v, _ | ⟨w, ws⟩⟩⟩⟩
      · exact ⟨.MALFORMATEDDATA, rfl⟩
      · exact ⟨.MALFORMATEDDATA, rfl⟩
      · exact ⟨.MALFORMATEDDATA, rfl⟩
      · exact ⟨.INVALIDNFTID,
          by simp [storeParts, parseU32_head_nondigit '<' p (by decide) (by decide)]⟩
      · exact ⟨.MALFORMATEDDATA, rfl⟩
    · -- suffix marker only: the last split part ends with '>'
      obtain ⟨t, ht⟩ := List.isSuffixOf_iff_suffix.mp h2
      have hs : s = (t ++ "</Bytes".toList) ++ ['>'] := by
        rw [← ht, List.append_assoc]
        rfl
      obtain ⟨q, hq⟩ := splitU_getLast_append (t ++ "</Bytes".toList) '>' (by decide)
      rw [hcore, hs]
      rcases hsp : splitU ((t ++ "</Bytes".toList) ++ ['>']) with
        _ | ⟨a, _ | ⟨k, _ | ⟨b, _ | ⟨v, _ | ⟨w, ws⟩⟩⟩⟩⟩
      · exact absurd hsp (splitU_ne_nil _)
      · exact ⟨.MALFORMATEDDATA, rfl⟩
      · exact ⟨.MALFORMATEDDATA, rfl⟩
      · exact ⟨.MALFORMATEDDATA, rfl⟩
      · rw [hsp] at hq
        simp only [List.getLast?_cons_cons, List.getLast?_singleton,
          Option.some.injEq] at hq
        exact storeParts_last_bad a k b v (hq ▸ parseU32_append_nondigit q '>' (by decide))
      · exact ⟨.MALFORMATEDDATA, rfl⟩

/-- Any single-marker data field makes `parse_retrieve_data` fail. -/
theorem parseRetrieveDataCore_single_marker (s : Str) (h : singleMarker s) :
    ∃ e, parseRetrieveDataCore s = .error e := by
  have hstrip := stripMarkers_single h
  by_cases hdel : hasDelim s = false
  · exact ⟨.MALFORMATEDDATA, by simp [parseRetrieveDataCore, hstrip, hdel]⟩
  · have hcore : parseRetrieveDataCore s = retrieveParts (splitU s) := by
      simp only [parseRetrieveDataCore, hstrip]
      rw [if_neg hdel]
    rcases h with ⟨h1, _⟩ | ⟨_, h2⟩
    · obtain ⟨r, hr⟩ := List.isPrefixOf_iff_prefix.mp h1
      have hs : s = '<' :: ("Bytes>".toList ++ r) := by rw [← hr]; rfl
      obtain ⟨p, ps, hsp⟩ := splitU_cons_head '<' ("Bytes>".toList ++ r) (by decide)
      rw [hcore, hs, hsp]
      rcases ps with _ | ⟨b, _ | ⟨v, _ | ⟨w, ws⟩⟩⟩
      · exact ⟨.MALFORMATEDDATA, rfl⟩
      · exact ⟨.MALFORMATEDDATA, rfl⟩
      · exact ⟨.INVALIDNFTID,
          by simp [retrieveParts, parseU32_head_nondigit '<' p (by decide) (by decide)]⟩
      · exact ⟨.MALFORMATEDDATA, rfl⟩
    · obtain ⟨t, ht⟩ := List.isSuffixOf_iff_suffix.mp h2
      have hs : s = (t ++ "</Bytes".toList) ++ ['>'] := by
        rw [← ht, List.append_assoc]
        rfl
      obtain ⟨q, hq⟩ := splitU_getLast_append (t ++ "</Bytes".toList) '>' (by decide)
      rw [hcore, hs]
      rcases hsp : splitU ((t ++ "</Bytes".toList) ++ ['>']) with
        _ | ⟨a, _ | ⟨b, _ | ⟨v, _ | ⟨w, ws⟩⟩⟩⟩
      · exact absurd hsp (splitU_ne_nil _)
      · exact ⟨.MALFORMATEDDATA, rfl⟩
      · exact ⟨.MALFORMATEDDATA, rfl⟩
      · rw [hsp] at hq
        simp only [List.getLast?_cons_cons, List.getLast?_singleton,
          Option.some.injEq] at hq
        exact retrieveParts_last_bad a b v (hq ▸ parseU32_append_nondigit q '>' (by decide))
      · exact ⟨.MALFORMATEDDATA, rfl⟩

/- ---------------- shared concrete oracles for closed theorems ---------------- -/

/-- Concrete ss58 decode oracle: accepts exactly the address "ADDR". -/
def ss58c : Str → Option Account :=
  fun s => if s = "ADDR".toList then some s else none

/-- Concrete signature-verification oracle accepting every signature. -/
def sigOkAll : SigVerify := fun _ _ _ => true

/-- Concrete chain: nft 5 is a secret capsule owned by "OWNER"; no delegatee
or rentee anywhere. -/
def chainc : Chain where
  nftData := fun n => if n = 5 then some ⟨"OWNER".toList, true, true⟩ else none
  delegatee := fun _ => none
  rentee := fun _ => none

/-- C6 (amended): for the store and retrieve DATA fields the claim holds —
a field carrying exactly one wrapper marker always fails to parse (the stray
marker lands in the numeric first or last part and is rejected downstream);
the guarantee does NOT extend to the signer field, where a trailing
suffix-only marker can be silently ignored (see the counterexample). -/
theorem C6_single_marker_data_fails (p : StoreKeysharePacket)
    (q : RetrieveKeysharePacket) (hp : singleMarker p.data)
    (hq : singleMarker q.data) :
    (∃ e, parseStoreData p = .error e) ∧ (∃ e, parseRetrieveData q = .error e) :=
  ⟨parseStoreDataCore_single_marker p.data hp,
   parseRetrieveDataCore_single_marker q.data hq⟩

/-- C6 witness: the amended theorem applied to a store packet whose data
carries only the opening marker and a retrieve packet whose data carries only
the closing marker. -/
theorem C6_single_marker_data_fails_witness :
    (∃ e, parseStoreData ⟨[], [], [], "<Bytes>163_k_1000_10".toList, []⟩ = .error e) ∧
      (∃ e, parseRetrieveData ⟨[], .OWNER, "163_1000_10</Bytes>".toList, []⟩ = .error e) :=
  C6_single_marker_data_fails
    ⟨[], [], [], "<Bytes>163_k_1000_10".toList, []⟩
    ⟨[], .OWNER, "163_1000_10</Bytes>".toList, []⟩
    (by decide) (by decide)

/-- C6 counterexample: the signer field "ADDR_1_2_</Bytes>" carries the
closing wrapper marker without the opening one, yet get_signer parses it
SUCCESSFULLY — the marker lands in the ignored fourth part — contradicting
the claim that a field carrying exactly one marker always yields a hard parse
error. -/
theorem C6_counterexample :
    singleMarker "ADDR_1_2_</Bytes>".toList ∧
      getSigner ss58c ⟨"OWNER".toList, "ADDR_1_2_</Bytes>".toList, [], [], []⟩ =
        .ok ⟨"ADDR".toList, ⟨1, 2⟩⟩ :=
  ⟨by decide, by decide⟩

/- ================ C8 ================ -/

/-- C8 (amended): get_signer itself reports MALFORMATEDSIGNER when the field
lacks the delimiter or splits into fewer than 3 parts, INVALIDSIGNERADDRESS
when the account part is not a valid chain address, and INVALIDAUTHTOKEN when
a token part is not a valid u32 — but verify_store_request reaches the signer
field only through verify_signer, which collapses EVERY get_signer failure to
INVALIDSIGNERADDRESS, so verify_store_request never returns MALFORMATEDSIGNER
or INVALIDAUTHTOKEN for a malformed signer field. -/
theorem C8_signer_parse_errors (ss58 : Str → Option Account) (sv : SigVerify)
    (ch : Chain) (h : Nat) (p : StoreKeysharePacket) (t : Str)
    (a b c : Str) (rest : List Str) (e : VerificationError) :
    (hasDelim (stripMarkers p.signer_address) = false →
      getSigner ss58 p = .error .MALFORMATEDSIGNER) ∧
    (splitU (stripMarkers p.signer_address) = [a] →
      getSigner ss58 p = .error .MALFORMATEDSIGNER) ∧
    (splitU (stripMarkers p.signer_address) = [a, b] →
      getSigner ss58 p = .error .MALFORMATEDSIGNER) ∧
    (hasDelim (stripMarkers p.signer_address) = true →
      splitU (stripMarkers p.signer_address) = a :: b :: c :: rest →
      ((ss58 a = none → getSigner ss58 p = .error .INVALIDSIGNERADDRESS) ∧
       (∀ acc, ss58 a = some acc → parseU32 b = none →
         getSigner ss58 p = .error .INVALIDAUTHTOKEN) ∧
       (∀ acc n, ss58 a = some acc → parseU32 b = some n → parseU32 c = none →
         getSigner ss58 p = .error .INVALIDAUTHTOKEN))) ∧
    (getSigner ss58 p = .error e →
      verifyStoreRequest ss58 sv ch h p t = .error .INVALIDSIGNERADDRESS) := by
  refine ⟨fun hd => by simp [getSigner, hd], fun hsp => ?_, fun hsp => ?_,
    fun hd hsp => ⟨fun ha => ?_, fun acc ha hb => ?_, fun acc n ha hb hc => ?_⟩,
    fun herr => by simp [verifyStoreRequest, verifySigner, herr]⟩
  · by_cases hd : hasDelim (stripMarkers p.signer_address) = false
    · simp [getSigner, hd]
    · simp [getSigner, hd, hsp, signerParts]
  · by_cases hd : hasDelim (stripMarkers p.signer_address) = false
    · simp [getSigner, hd]
    · simp [getSigner, hd, hsp, signerParts]
  · simp [getSigner, hd, hsp, signerParts, ha]
  · simp [getSigner, hd, hsp, signerParts, ha, hb]
  · simp [getSigner, hd, hsp, signerParts, ha, hb, hc]

/-- Concrete store packet whose signer field has a valid address but a
non-numeric block-number part. -/
def pktBadTok : StoreKeysharePacket := ⟨"OWNER".toList, "ADDR_x_1".toList, [], [], []⟩

/-- C8 witness: the amended theorem at a concrete packet whose signer field is
"ADDR_x_1": get_signer reports INVALIDAUTHTOKEN, while verify_store_request
reports INVALIDSIGNERADDRESS for the same packet. -/
theorem C8_signer_parse_errors_witness :
    getSigner ss58c pktBadTok = .error .INVALIDAUTHTOKEN ∧
      verifyStoreRequest ss58c sigOkAll chainc 0 pktBadTok [] =
        .error .INVALIDSIGNERADDRESS :=
  ⟨((C8_signer_parse_errors ss58c sigOkAll chainc 0 pktBadTok []
      "ADDR".toList "x".toList "1".toList [] .INVALIDAUTHTOKEN).2.2.2.1
      (by decide) (by decide)).2.1 "ADDR".toList (by decide) (by decide),
   (C8_signer_parse_errors ss58c sigOkAll chainc 0 pktBadTok []
      "ADDR".toList "x".toList "1".toList [] .INVALIDAUTHTOKEN).2.2.2.2
      (by decide)⟩

/-- Concrete store packet whose signer field has no delimiter at all. -/
def pktNoDelim : StoreKeysharePacket := ⟨"OWNER".toList, "plain".toList, [], [], []⟩

/-- C8 counterexample: for the signer field "plain" (no delimiter), get_signer
does report MALFORMATEDSIGNER, but verify_store_request returns
INVALIDSIGNERADDRESS — not the MALFORMATEDSIGNER the claim requires. -/
theorem C8_counterexample :
    getSigner ss58c pktNoDelim = .error .MALFORMATEDSIGNER ∧
      verifyStoreRequest ss58c sigOkAll chainc 0 pktNoDelim [] =
        .error .INVALIDSIGNERADDRESS ∧
      VerificationError.INVALIDSIGNERADDRESS ≠ .MALFORMATEDSIGNER :=
  ⟨by decide, by decide, by decide⟩

/- ================ C9 ================ -/

theorem digitsVal_append_single (xs : Str) (c : Char) :
    digitsVal (xs ++ [c]) = 10 * digitsVal xs + (c.toNat - 48) := by
  simp [digitsVal, List.foldl_append]

theorem digitChar_spec : ∀ d, d < 10 → (digitChar d).isDigit = true ∧
    (digitChar d).toNat - 48 = d ∧ ¬ digitChar d = '_' := by decide

theorem natDigitsAux_spec : ∀ fuel n, n ≤ fuel →
    (natDigitsAux fuel n).all Char.isDigit = true ∧
    digitsVal (natDigitsAux fuel n) = n ∧
    (n ≠ 0 → natDigitsAux fuel n ≠ [])
  | 0, n, hle => by
    have : n = 0 := by omega
    subst this
    exact ⟨rfl, rfl, by simp⟩
  | fuel + 1, n, hle => by
    by_cases hn : n = 0
    · subst hn
      exact ⟨rfl, rfl, by simp⟩
    · have hdiv : n / 10 ≤ fuel := by
        have hlt : n / 10 < n := Nat.div_lt_self (Nat.pos_of_ne_zero hn) (by omega)
        omega
      obtain ⟨ihall, ihval, _⟩ := natDigitsAux_spec fuel (n / 10) hdiv
      obtain ⟨hd1, hd2, _⟩ := digitChar_spec (n % 10) (Nat.mod_lt n (by omega))
      refine ⟨?_, ?_, ?_⟩
      · simp [natDigitsAux, hn, List.all_append, ihall, hd1]
      · rw [show natDigitsAux (fuel + 1) n =
          natDigitsAux fuel (n / 10) ++ [digitChar (n % 10)] from by
            simp [natDigitsAux, hn]]
        rw [digitsVal_append_single, ihval, hd2]
        omega
      · intro _
        simp [natDigitsAux, hn]

theorem natToStr_spec (n : Nat) :
    (natToStr n).all Char.isDigit = true ∧ digitsVal (natToStr n) = n ∧
      natToStr n ≠ [] := by
  by_cases hn : n = 0
  · subst hn
    exact ⟨by decide, by decide, by decide⟩
  · obtain ⟨h1, h2, h3⟩ := natDigitsAux_spec n n (le_refl n)
    exact ⟨by simp [natToStr, hn, h1], by simp [natToStr, hn, h2],
      by simp [natToStr, hn]; exact h3 hn⟩

theorem parseU32_natToStr (n : Nat) (h : n < W) : parseU32 (natToStr n) = some n := by
  obtain ⟨hall, hval, hne⟩ := natToStr_spec n
  cases hs : natToStr n with
  | nil => exact absurd hs hne
  | cons c t =>
    rw [hs] at hall hval
    have hc : c.isDigit = true := by
      simp only [List.all_cons, Bool.and_eq_true] at hall
      exact hall.1
    have hcp : ¬ c = '+' := by
      intro hcc
      rw [hcc] at hc
      exact absurd hc (by decide)
    simp [parseU32, if_neg hcp, parseU32core, hall, hval, h]

theorem no_delim_of_all_digits {s : Str} (h : s.all Char.isDigit = true) :
    ∀ c ∈ s, ¬ c = '_' := by
  intro c hc heq
  rw [List.all_eq_true] at h
  have hd := h c hc
  rw [heq] at hd
  exact absurd hd (by decide)

theorem splitU_no_delim : ∀ s : Str, (∀ c ∈ s, ¬ c = '_') → splitU s = [s]
  | [], _ => rfl
  | c :: t, h => by
    have hc : ¬ c = '_' := h c (by simp)
    have ht := splitU_no_delim t (fun x hx => h x (by simp [hx]))
    simp [splitU, if_neg hc, ht]

theorem splitU_append_sep : ∀ (a : Str), (∀ c ∈ a, ¬ c = '_') → ∀ r : Str,
    splitU (a ++ '_' :: r) = a :: splitU r
  | [], _, r => by simp [splitU]
  | c :: t, h, r => by
    have hc : ¬ c = '_' := h c (by simp)
    have ht := splitU_append_sep t (fun x hx => h x (by simp [hx])) r
    simp [splitU, if_neg hc, ht]

theorem isPrefixOf_cons_false {a b : Char} {as bs : Str} (h : ¬ a = b) :
    (a :: as).isPrefixOf (b :: bs) = false := by
  simp [List.isPrefixOf, h]

/-- C9 (amended): serializing a StoreKeyshareData whose keyshare is NON-EMPTY
and contains no delimiter character, and parsing the result back with
parse_store_data, reproduces the original value (fields in u32 range); an
empty keyshare serializes but is rejected on re-parse with INVALIDKEYSHARE
(see the counterexample). -/
theorem C9_store_serialize_roundtrip (d : StoreKeyshareData)
    (hk : d.keyshare ≠ []) (hnd : ∀ c ∈ d.keyshare, ¬ c = '_')
    (h1 : d.nft_id < W) (h2 : d.auth_token.block_number < W)
    (h3 : d.auth_token.block_validation < W) :
    parseStoreData ⟨[], [], [], d.serializeS, []⟩ = .ok d := by
  obtain ⟨nft, ks, bn, bv⟩ := d
  obtain ⟨ha1, _, hn1⟩ := natToStr_spec nft
  obtain ⟨ha2, _, _⟩ := natToStr_spec bn
  obtain ⟨ha3, _, _⟩ := natToStr_spec bv
  have hshape : StoreKeyshareData.serializeS ⟨nft, ks, ⟨bn, bv⟩⟩ =
      natToStr nft ++ '_' :: (ks ++ '_' :: (natToStr bn ++ '_' :: natToStr bv)) := by
    simp [StoreKeyshareData.serializeS, AuthenticationToken.serializeT]
  show parseStoreDataCore (StoreKeyshareData.serializeS ⟨nft, ks, ⟨bn, bv⟩⟩) = _
  rw [hshape]
  have hsplit : splitU (natToStr nft ++ '_' :: (ks ++ '_' ::
      (natToStr bn ++ '_' :: natToStr bv))) =
      [natToStr nft, ks, natToStr bn, natToStr bv] := by
    rw [splitU_append_sep _ (no_delim_of_all_digits ha1),
      splitU_append_sep _ hnd,
      splitU_append_sep _ (no_delim_of_all_digits ha2),
      splitU_no_delim _ (no_delim_of_all_digits ha3)]
  have hpre : bytesOpen.isPrefixOf (natToStr nft ++ '_' :: (ks ++ '_' ::
      (natToStr bn ++ '_' :: natToStr bv))) = false := by
    cases hsn : natToStr nft with
    | nil => exact absurd hsn hn1
    | cons c t =>
      have hc : c.isDigit = true := by
        rw [hsn] at ha1
        simp only [List.all_cons, Bool.and_eq_true] at ha1
        exact ha1.1
      have hlt : ¬ ('<' = c) := by
        intro hcc
        rw [← hcc] at hc
        exact absurd hc (by decide)
      rw [List.cons_append, show bytesOpen = '<' :: "Bytes>".toList from rfl]
      exact isPrefixOf_cons_false hlt
  have hstrip : stripMarkers (natToStr nft ++ '_' :: (ks ++ '_' ::
      (natToStr bn ++ '_' :: natToStr bv))) =
      natToStr nft ++ '_' :: (ks ++ '_' :: (natToStr bn ++ '_' :: natToStr bv)) := by
    simp [stripMarkers, hpre]
  have hdeli : hasDelim (natToStr nft ++ '_' :: (ks ++ '_' ::
      (natToStr bn ++ '_' :: natToStr bv))) = true := by
    simp [hasDelim, List.any_append]
  simp only [parseStoreDataCore, hstrip, hdeli]
  rw [if_neg (by simp), hsplit]
  simp [storeParts, parseU32_natToStr nft h1, parseU32_natToStr bn h2,
    parseU32_natToStr bv h3, hk]

/-- C9 witness: the amended round-trip theorem at the concrete value
(nft_id 163, keyshare "k", window (1000, 10)). -/
theorem C9_store_serialize_roundtrip_witness :
    parseStoreData ⟨[], [], [], StoreKeyshareData.serializeS
        ⟨163, "k".toList, ⟨1000, 10⟩⟩, []⟩ =
      .ok ⟨163, "k".toList, ⟨1000, 10⟩⟩ :=
  C9_store_serialize_roundtrip ⟨163, "k".toList, ⟨1000, 10⟩⟩ (by decide)
    (by decide) (by decide) (by decide) (by decide)

/-- C9 counterexample: the empty keyshare contains no delimiter character, yet
the round trip fails — "163__1000_10" is re-parsed as INVALIDKEYSHARE, not as
the original value. -/
theorem C9_counterexample :
    StoreKeyshareData.serializeS ⟨163, [], ⟨1000, 10⟩⟩ = "163__1000_10".toList ∧
      parseStoreData ⟨[], [], [], StoreKeyshareData.serializeS
          ⟨163, [], ⟨1000, 10⟩⟩, []⟩ = .error .INVALIDKEYSHARE :=
  ⟨by decide, by decide⟩

/- ================ C3 ================ -/

/-- C3 (amended): owner grants signer X a window (B, V); X signs a well-formed
4-part store data field carrying the same window; the on-chain owner matches
the packet owner and the nft-type flags pass. Then verify_store_request at
chain height B+1 returns the parsed StoreKeyshareData — but at height B+V+4
it fails with EXPIREDSIGNER, not ExpiredData: the signer grant carries the
same expired window and verify_signer checks it first. -/
theorem C3_store_request_window (ss58 : Str → Option Account) (sv : SigVerify)
    (ch : Chain) (p : StoreKeysharePacket) (sacc : Account) (B V : Nat)
    (d : StoreKeyshareData) (nd : NftData) (s1 s2 : Sig) (t : Str)
    (hB : 3 ≤ B) (hw : B + V + 4 < W)
    (hsigner : getSigner ss58 p = .ok ⟨sacc, ⟨B, V⟩⟩)
    (hps1 : parseSignatureStore p signerSlot = .ok s1)
    (hv1 : sv s1 p.signer_address p.owner_address = true)
    (hps2 : parseSignatureStore p ownerSlot = .ok s2)
    (hv2 : sv s2 p.data sacc = true)
    (hdata : parseStoreData p = .ok d)
    (hdtok : d.auth_token = ⟨B, V⟩)
    (hchain : ch.nftData d.nft_id = some nd)
    (hfl1 : ¬ (t = secretNftTag ∧ nd.is_secret = false))
    (hfl2 : ¬ (t = capsuleTag ∧ nd.is_capsule = false))
    (howner : nd.owner = p.owner_address) :
    verifyStoreRequest ss58 sv ch (B + 1) p t = .ok d ∧
      verifyStoreRequest ss58 sv ch (B + V + 4) p t = .error .EXPIREDSIGNER := by
  have htok1 : tokenIsValid ⟨B, V⟩ (B + 1) = true :=
    (tokenValid_iff B V (B + 1) hB (by omega)).mpr (by omega)
  have htok2 : tokenIsValid ⟨B, V⟩ (B + V + 4) = false := by
    rw [Bool.eq_false_iff]
    intro hcon
    rw [tokenValid_iff B V _ hB (by omega)] at hcon
    omega
  constructor
  · have hvs : verifySigner ss58 sv (B + 1) p = .ok true := by
      simp [verifySigner, hsigner, htok1, hps1, hv1]
    have hvd : verifyData ss58 sv p = .ok true := by
      simp [verifyData, hsigner, hps2, hdata, hv2]
    simp [verifyStoreRequest, hvs, hvd, hdata, hchain, hfl1, hfl2, hdtok, htok1,
      verifyRequesterType, howner]
  · have hvs2 : verifySigner ss58 sv (B + V + 4) p = .error .EXPIREDSIGNER := by
      simp [verifySigner, hsigner, htok2]
    simp [verifyStoreRequest, hvs2]

/-- A well-formed 0x-prefixed 128-hex-character signature string. -/
def sig0x : Str := "0x".toList ++ List.replicate 128 '0'

/-- Concrete store packet: owner "OWNER" grants "ADDR" the window (100, 10),
and "ADDR" signs the 4-part data field for nft 5 with the same window. -/
def pktC3 : StoreKeysharePacket :=
  ⟨"OWNER".toList, "ADDR_100_10".toList, sig0x, "5_k_100_10".toList, sig0x⟩

/-- C3 witness: the amended theorem at the concrete packet: success at height
101 = B+1, EXPIREDSIGNER at height 114 = B+V+4. -/
theorem C3_store_request_window_witness :
    verifyStoreRequest ss58c sigOkAll chainc 101 pktC3 secretNftTag =
        .ok ⟨5, "k".toList, ⟨100, 10⟩⟩ ∧
      verifyStoreRequest ss58c sigOkAll chainc 114 pktC3 secretNftTag =
        .error .EXPIREDSIGNER :=
  C3_store_request_window ss58c sigOkAll chainc pktC3 "ADDR".toList 100 10
    ⟨5, "k".toList, ⟨100, 10⟩⟩ ⟨"OWNER".toList, true, true⟩
    (List.replicate 64 0) (List.replicate 64 0) secretNftTag
    (by decide) (by decide) (by decide) (by decide) (by decide) (by decide)
    (by decide) (by decide) (by decide) (by decide) (by decide) (by decide)
    (by decide)

/-- C3 counterexample: for the concrete end-to-end setup that succeeds at
height B+1 = 101, the request at height B+V+4 = 114 does NOT fail with
ExpiredData (it fails with EXPIREDSIGNER), contradicting the claim. -/
theorem C3_counterexample :
    verifyStoreRequest ss58c sigOkAll chainc 101 pktC3 secretNftTag =
        .ok ⟨5, "k".toList, ⟨100, 10⟩⟩ ∧
      verifyStoreRequest ss58c sigOkAll chainc 114 pktC3 secretNftTag ≠
        .error .EXPIREDDATA :=
  ⟨by decide, by decide⟩

/- ================ C7 ================ -/

/-- Concrete environment for the admin handler in which every verification
step succeeds but the produced backup file fails to open. -/
def envC7 : Admin.Env where
  whitelist := ["alice".toList]
  parseToken := fun s => if s = "tok".toList then some ⟨100, 10, "h".toList⟩ else none
  verifySig := fun _ _ _ => true
  height := some 100
  sha256 := fun _ => "h".toList
  parseNftVec := fun _ => some [1]
  fileOpen := false

/-- Concrete admin request matching `envC7`. -/
def reqC7 : Admin.FetchIdPacket :=
  ⟨"alice".toList, "vec".toList, "tok".toList, "sig".toList⟩

/-- C7 (code bug): on the backup-file-open failure path,
admin_backup_fetch_id returns WITHOUT clearing the shared maintenance-status
indicator — it is still the busy message at return time — while the identical
request with a readable backup file exits through the clearing path. Every
other exit path does clear the flag, so the claim (and the spec's
guaranteed-release-on-every-exit-path design) is violated exactly here. -/
theorem C7_maintenance_not_cleared :
    Admin.adminBackupFetchId envC7 reqC7 = (.FileNotFound, Admin.busyMsg) ∧
      Admin.busyMsg ≠ [] ∧
      Admin.adminBackupFetchId { envC7 with fileOpen := true } reqC7 =
        (.Success, []) :=
  ⟨by decide, by decide, by decide⟩

/- ================ C10 ================ -/

/-- C10: in the retrieve flow, a signature string that fails to parse is
reported by verify_data as INVALIDSIGNERSIG (not INVALIDDATASIG), and a
parsed-but-non-verifying signature makes verify_retrieve_request return
SIGNERVERIFICATIONFAILED while verify_free_retrieve_request reports the same
situation as DATAVERIFICATIONFAILED. -/
theorem C10_retrieve_error_variants (sv : SigVerify) (ch : Chain) (h : Nat)
    (q : RetrieveKeysharePacket) (d : RetrieveKeyshareData) (t : Str)
    (e : SignatureError) (sig : Sig)
    (hd : parseRetrieveData q = .ok d)
    (ht : tokenIsValid d.auth_token h = true) :
    (parseSigString q.signature = .error e →
      verifyDataRetrieve sv h q = .error (.INVALIDSIGNERSIG e)) ∧
    (parseSigString q.signature = .ok sig →
      sv sig q.data q.requester_address = false →
      verifyRetrieveRequest sv ch h q t = .error .SIGNERVERIFICATIONFAILED ∧
        verifyFreeRetrieveRequest sv h q = .error .DATAVERIFICATIONFAILED) := by
  constructor
  · intro hsig
    simp [verifyDataRetrieve, hd, ht, hsig]
  · intro hsig hsv
    have hvd : verifyDataRetrieve sv h q = .ok false := by
      simp [verifyDataRetrieve, hd, ht, hsig, hsv]
    exact ⟨by simp [verifyRetrieveRequest, hvd],
      by simp [verifyFreeRetrieveRequest, hd, hvd]⟩

/-- Concrete signature-verification oracle rejecting every signature. -/
def sigFailAll : SigVerify := fun _ _ _ => false

/-- Concrete retrieve packet with an unparsable (unprefixed) signature. -/
def qBadSig : RetrieveKeysharePacket :=
  ⟨"OWNER".toList, .OWNER, "5_100_10".toList, "zz".toList⟩

/-- Concrete retrieve packet with a well-formed signature. -/
def qGoodSig : RetrieveKeysharePacket :=
  ⟨"OWNER".toList, .OWNER, "5_100_10".toList, sig0x⟩

/-- C10 witness: the theorem applied at height 101 to a packet with an
unprefixed signature (INVALIDSIGNERSIG PREFIXERROR from verify_data) and to a
packet whose parsed signature fails verification (SIGNERVERIFICATIONFAILED
from verify_retrieve_request, DATAVERIFICATIONFAILED from the free variant). -/
theorem C10_retrieve_error_variants_witness :
    verifyDataRetrieve sigOkAll 101 qBadSig =
        .error (.INVALIDSIGNERSIG .PREFIXERROR) ∧
      verifyRetrieveRequest sigFailAll chainc 101 qGoodSig secretNftTag =
          .error .SIGNERVERIFICATIONFAILED ∧
        verifyFreeRetrieveRequest sigFailAll 101 qGoodSig =
          .error .DATAVERIFICATIONFAILED :=
  ⟨(C10_retrieve_error_variants sigOkAll chainc 101 qBadSig ⟨5, ⟨100, 10⟩⟩
      secretNftTag .PREFIXERROR [] (by decide) (by decide)).1 (by decide),
   (C10_retrieve_error_variants sigFailAll chainc 101 qGoodSig ⟨5, ⟨100, 10⟩⟩
      secretNftTag .PREFIXERROR (List.replicate 64 0) (by decide) (by decide)).2
      (by decide) (by decide)⟩
